import Mathlib

/-!
# go-upload-proxy: the upload relay handler and its CORS middleware

A shallow embedding of `main.go`.  The two handlers of the program,
`corsMiddleware` and `uploadHandler`, and the helper `getHeaderWithDefault`
are translated statement by statement.  The parts of Go's `net/http` they call
are modelled as follows:

* `http.Header` is a finite map from canonical header names to value lists,
  with `Get`, `Set` and `Del` canonicalising the name they are given;
* `http.ResponseWriter` is the server's writer: `WriteHeader` panics on a status
  outside 100..999 (and then the handler is over and no response goes out),
  the first valid `WriteHeader` sends the status with the header map as it is
  at that moment, and `Write` sends bytes unless the status admits no body
  (1xx, 204, 304);
* `http.MaxBytesReader` followed by `io.ReadAll` yields the whole body when it
  fits the limit and fails otherwise;
* `http.Client.Do` on the zero-value client sends the request and follows
  redirects (301, 302, 303, 307, 308 with a `Location`), at most ten requests
  in all; every request that goes out is appended to the list of requests
  sent, and the last answer is what `Do` returns.

`log.Printf` calls write to the process log only and are left out.
-/

namespace GoUploadProxy

/-! ## Constants of `main.go` -/

def PORT : Nat := 5001

def TARGETR_UPLOAD_URL : String := "https://stacks.targetr.net/upload"

/-- Limit of 100MB on the inbound body. -/
def MAX_UPLOAD_SIZE : Nat := 100 * 1024 * 1024

/-! ## Constants of `net/http` -/

def MethodPost : String := "POST"
def MethodOptions : String := "OPTIONS"
def StatusOK : Int := 200
def StatusBadRequest : Int := 400
def StatusMethodNotAllowed : Int := 405
def StatusInternalServerError : Int := 500

/-! ## Bytes and Go strings -/

/-- A Go `[]byte`. -/
abbrev Bytes := List UInt8

/-- The bytes of a Go string constant (Go strings are UTF-8 byte sequences). -/
def stringBytes (s : String) : Bytes := s.data.flatMap String.utf8EncodeChar

/-! ## `http.Header` -/

/-- The type `http.Header`, a `map[string][]string`: for each key of the list the first pair is
the map's entry. -/
abbrev Header := List (String × List String)

/-- The bytes `net/textproto` accepts in a header field name (the token characters). -/
def validHeaderFieldByte (c : Char) : Bool :=
  c.isAlphanum || "!#$%&*+-.^_|~".data.contains c || c == Char.ofNat 39 || c == Char.ofNat 96

/-- The canonicalising loop of `net/textproto`: upper case for the first letter and for a
letter after a dash, lower case elsewhere. -/
def canonicalLoop : Bool → List Char → List Char
  | _, [] => []
  | upper, c :: cs =>
    let d := if upper && c.isLower then c.toUpper
             else if !upper && c.isUpper then c.toLower else c
    d :: canonicalLoop (d == '-') cs

/-- The function `textproto.CanonicalMIMEHeaderKey`: a name made of token characters only is
canonicalised, any other string is returned unchanged. -/
def CanonicalMIMEHeaderKey (s : String) : String :=
  if s.data.all validHeaderFieldByte then String.mk (canonicalLoop true s.data) else s

namespace Header

/-- The map entry `h[key]` (no canonicalisation), `none` when the key is absent. -/
def entry (h : Header) (key : String) : Option (List String) :=
  match h with
  | [] => none
  | (k, vs) :: rest => if k = key then some vs else entry rest key

/-- The keys of the map. -/
def keys (h : Header) : List String := h.map Prod.fst

/-- The method `Header.Get`: the first value of the canonicalised key, and the empty string
when there is none. -/
def Get (h : Header) (key : String) : String :=
  match h.entry (CanonicalMIMEHeaderKey key) with
  | some (v :: _) => v
  | _ => ""

/-- The method `Header.Set`: the entry of the canonicalised key becomes the single value. -/
def Set (h : Header) (key value : String) : Header :=
  (CanonicalMIMEHeaderKey key, [value]) ::
    h.filter (fun p => !(p.1 == CanonicalMIMEHeaderKey key))

/-- The method `Header.Del`: the entry of the canonicalised key is removed. -/
def Del (h : Header) (key : String) : Header :=
  h.filter (fun p => !(p.1 == CanonicalMIMEHeaderKey key))

end Header

/-! ## `http.ResponseWriter` -/

/-- The state of the `http.ResponseWriter` of one request: the header map `w.Header()`, whether
the status line went out, the status and the header map that went out with it, the body bytes
sent so far, and whether a call on the writer panicked. -/
structure ResponseWriter where
  header : Header
  wroteHeader : Bool
  status : Int
  sentHeader : Header
  body : Bytes
  panicked : Bool
  deriving DecidableEq

/-- The test of `checkWriteHeaderCode` in `net/http`: `true` when the code is refused, that is
when it has not three digits; `WriteHeader` then panics. -/
def checkWriteHeaderCode (code : Int) : Bool :=
  decide (code < 100) || decide (code > 999)

/-- The function `bodyAllowedForStatus` of `net/http`: no body goes with a 1xx, 204 or 304
status. -/
def bodyAllowedForStatus (status : Int) : Bool :=
  if 100 ≤ status ∧ status ≤ 199 then false
  else if status = 204 then false
  else if status = 304 then false
  else true

namespace ResponseWriter

/-- The writer the server hands to the handler of a new request. -/
def new : ResponseWriter :=
  { header := [], wroteHeader := false, status := 0, sentHeader := [], body := [],
    panicked := false }

/-- The method `WriteHeader`: a call after the status went out is superfluous and changes
nothing; otherwise a code outside 100..999 panics, and a valid code is sent with the header map
as it is then. After a panic the handler is over, so a panicked writer ignores every call. An
interim code (1xx other than 101), which `client.Do` consumes and never returns, gets no
treatment of its own here. -/
def WriteHeader (w : ResponseWriter) (code : Int) : ResponseWriter :=
  if w.panicked then w
  else if w.wroteHeader then w
  else if checkWriteHeaderCode code then { w with panicked := true }
  else { w with wroteHeader := true, status := code, sentHeader := w.header }

/-- The method `Write`: sends status 200 first when no status went out yet, then the bytes,
unless the status admits no body (the bytes are then dropped with `ErrBodyNotAllowed`). -/
def Write (w : ResponseWriter) (data : Bytes) : ResponseWriter :=
  if w.panicked then w
  else
    let w1 := if w.wroteHeader then w else w.WriteHeader StatusOK
    if bodyAllowedForStatus w1.status then { w1 with body := w1.body ++ data } else w1

/-- The call `w.Header().Set(key, value)`. -/
def setHeader (w : ResponseWriter) (key value : String) : ResponseWriter :=
  if w.panicked then w else { w with header := w.header.Set key value }

/-- The call `w.Header().Del(key)`. -/
def delHeader (w : ResponseWriter) (key : String) : ResponseWriter :=
  if w.panicked then w else { w with header := w.header.Del key }

/-- The hook `requestTooLarge` that `http.MaxBytesReader` calls on the server's writer when the
limit is passed: the connection is closed after the reply. -/
def requestTooLarge (w : ResponseWriter) : ResponseWriter :=
  if w.wroteHeader then w else w.setHeader "Connection" "close"

end ResponseWriter

/-! ## Requests, the upstream and handlers -/

/-- The fields of `http.Request` the program uses; `Body` is the whole body the reader of the
request delivers. -/
structure Request where
  Method : String
  URL : String
  Header : GoUploadProxy.Header
  Body : Bytes
  deriving DecidableEq

/-- The call `req.Header.Set(key, value)`. -/
def Request.setHeader (req : Request) (key value : String) : Request :=
  { req with Header := req.Header.Set key value }

/-- The `Location` header of a response as the client reads it when it follows a redirect:
absent (or empty), not parseable as a URL reference, or resolved against the URL of the request
to the target `url`. -/
inductive Location where
  | absent
  | invalid
  | target (url : String)
  deriving DecidableEq

/-- An `http.Response`: the status code, the `Location` header, and what `io.ReadAll` of its
body gives (`none` when that read fails). -/
structure Response where
  StatusCode : Int
  Location : GoUploadProxy.Location := GoUploadProxy.Location.absent
  Body : Option Bytes

/-- The outside world of the handler: how the transport answers one request that goes out
(`none` is a transport error) and the requests that went out so far. -/
structure World where
  roundTrip : Request → Option Response
  sent : List Request

/-- The type `http.HandlerFunc`, with the state `σ` of the world the handler acts on. -/
abbrev HandlerFunc (σ : Type) := ResponseWriter → Request → σ → ResponseWriter × σ

/-- What the client is sent: status, headers and body. -/
structure Reply where
  status : Int
  header : Header
  body : Bytes
  deriving DecidableEq

/-- The server runs a handler on a fresh writer. When the handler panicked before a status went
out, the server closes the connection and the client gets no response (`none`); a handler that
returns without having sent a status gets status 200. -/
def serve {σ : Type} (h : HandlerFunc σ) (r : Request) (s : σ) : Option Reply × σ :=
  let out := h ResponseWriter.new r s
  if out.1.panicked then (none, out.2)
  else
    let w := if out.1.wroteHeader then out.1 else out.1.WriteHeader StatusOK
    (some { status := w.status, header := w.sentHeader, body := w.body }, out.2)

namespace http

/-- The function `http.Error`: drops `Content-Length`, sets the plain-text content type and
`nosniff`, sends the status and writes the message followed by a newline. -/
def Error (w : ResponseWriter) (msg : Bytes) (code : Int) : ResponseWriter :=
  let w := w.delHeader "Content-Length"
  let w := w.setHeader "Content-Type" "text/plain; charset=utf-8"
  let w := w.setHeader "X-Content-Type-Options" "nosniff"
  let w := w.WriteHeader code
  w.Write (msg ++ stringBytes "\n")

/-- The reader `http.MaxBytesReader(w, r.Body, n)`. -/
structure maxBytesReader where
  w : ResponseWriter
  r : Bytes
  n : Nat

/-- The function `http.MaxBytesReader`. -/
def MaxBytesReader (w : ResponseWriter) (r : Bytes) (n : Nat) : maxBytesReader :=
  { w := w, r := r, n := n }

/-- The method check of `http.NewRequest`: a non-empty token. -/
def validMethod (method : String) : Bool :=
  method.length > 0 && method.data.all validHeaderFieldByte

/-- The control-byte check of `url.Parse`. The other causes for which `url.Parse` rejects a
string (a malformed percent escape, host or port, a colon in the first path segment) are not
modelled; the one URL of this program has none of them. -/
def urlParseOk (url : String) : Bool :=
  url.data.all (fun c => !(c.toNat < 32 || c.toNat == 127))

/-- The function `http.NewRequest`: `none` stands for a non-nil error. -/
def NewRequest (method url : String) (body : Bytes) : Option Request :=
  let method := if method = "" then "GET" else method
  if !validMethod method then none
  else if !urlParseOk url then none
  else some { Method := method, URL := url, Header := [], Body := body }

end http

namespace io

/-- The call `io.ReadAll` on a `MaxBytesReader`: all the bytes when they are at most `n`;
otherwise the read fails with a `MaxBytesError` after the writer was told the request is too
large. Returns the writer with the result (`none` is a non-nil error). -/
def ReadAll (l : http.maxBytesReader) : ResponseWriter × Option Bytes :=
  if l.r.length ≤ l.n then (l.w, some l.r) else (l.w.requestTooLarge, none)

end io

/-- The function `redirectBehavior` of `net/http`, for a request that can replay its body (as
one built by `http.NewRequest` from a byte reader can): `none` when the response is not a
redirect to follow, otherwise the method of the next request and whether it carries the body.
After 301, 302 and 303 a method other than GET and HEAD becomes GET and the body is dropped;
after 307 and 308 method and body are kept. -/
def redirectBehavior (reqMethod : String) (resp : Response) : Option (String × Bool) :=
  if resp.StatusCode = 301 ∨ resp.StatusCode = 302 ∨ resp.StatusCode = 303 then
    some (if reqMethod != "GET" && reqMethod != "HEAD" then "GET" else reqMethod, false)
  else if resp.StatusCode = 307 ∨ resp.StatusCode = 308 then
    some (reqMethod, true)
  else none

/-- The loop of `Client.do` for the zero-value client, with `ireq` the request `Do` was given,
the number of requests that may still go out, whether the body is still carried, the request to
send now and the requests sent so far. A transport error, a `Location` that does not parse and
the eleventh request (`stopped after 10 redirects`) end in an error (`none`); a response that
is no redirect, or has no `Location`, is returned. The next request copies the headers of
`ireq` (the `Referer` header Go adds to it, and the dropping of credential headers across
hosts, are left out). -/
def Client.doLoop (roundTrip : Request → Option Response) (ireq : Request) :
    Nat → Bool → Request → List Request → Option Response × List Request
  | 0, _, _, sent => (none, sent)
  | n + 1, includeBody, req, sent =>
    match roundTrip req with
    | none => (none, sent ++ [req])
    | some resp =>
      match redirectBehavior req.Method resp with
      | none => (some resp, sent ++ [req])
      | some (redirectMethod, includeBodyOnHop) =>
        match resp.Location with
        | Location.absent => (some resp, sent ++ [req])
        | Location.invalid => (none, sent ++ [req])
        | Location.target u =>
          Client.doLoop roundTrip ireq n (includeBody && includeBodyOnHop)
            { Method := redirectMethod, URL := u, Header := ireq.Header,
              Body := if includeBody && includeBodyOnHop then ireq.Body else [] }
            (sent ++ [req])

/-- The method `Do` of the zero-value `http.Client`: the request goes out, redirects are
followed up to ten requests in all, and the last answer is returned (`none` is a non-nil
error). -/
def Client.Do (net : World) (req : Request) : Option Response × World :=
  ((Client.doLoop net.roundTrip req 10 true req net.sent).1,
   { net with sent := (Client.doLoop net.roundTrip req 10 true req net.sent).2 })

/-! ## The program -/

/-- CORS Middleware -/
def corsMiddleware {σ : Type} (next : HandlerFunc σ) : HandlerFunc σ := fun w r s =>
  let w := w.setHeader "Access-Control-Allow-Origin" "*"
  let w := w.setHeader "Access-Control-Allow-Methods" "POST, OPTIONS"
  let w := w.setHeader "Access-Control-Allow-Headers"
    "Content-Type, X-UploadType, X-FileName, X-ItemType, X-PendingId, X-ItemId"
  -- Handle preflight OPTIONS request
  if r.Method == MethodOptions then
    (w.WriteHeader StatusOK, s)
  else
    next w r s

/-- Helper function: a header of the request, with a default value. -/
def getHeaderWithDefault (r : Request) (key defaultValue : String) : String :=
  let value := r.Header.Get key
  if value == "" then defaultValue else value

/-- Upload Handler: takes the file from the client and forwards it to TargetR. -/
def uploadHandler : HandlerFunc World := fun w r net =>
  if r.Method != MethodPost then
    (http.Error w (stringBytes "Method not allowed") StatusMethodNotAllowed, net)
  else
    match io.ReadAll (http.MaxBytesReader w r.Body MAX_UPLOAD_SIZE) with
    | (w, none) =>
      (http.Error w (stringBytes "Error reading request body") StatusBadRequest, net)
    | (w, some fileBuffer) =>
      if fileBuffer.length == 0 then
        (http.Error w (stringBytes "File body is missing or empty.") StatusBadRequest, net)
      else
        match http.NewRequest "POST" TARGETR_UPLOAD_URL fileBuffer with
        | none =>
          (http.Error w (stringBytes "Internal Server Error during proxy.")
            StatusInternalServerError, net)
        | some proxyReq =>
          let proxyReq := proxyReq.setHeader "X-UploadType"
            (getHeaderWithDefault r "X-UploadType" "raw")
          let proxyReq := proxyReq.setHeader "X-FileName" (r.Header.Get "X-FileName")
          let proxyReq := proxyReq.setHeader "X-ItemType"
            (getHeaderWithDefault r "X-ItemType" "libraryitem")
          let proxyReq := proxyReq.setHeader "Content-Type"
            (getHeaderWithDefault r "Content-Type" "content/unknown")
          let proxyReq := proxyReq.setHeader "X-PendingId" (r.Header.Get "X-PendingId")
          let proxyReq := proxyReq.setHeader "X-ItemId" (r.Header.Get "X-ItemId")
          match Client.Do net proxyReq with
          | (none, net) =>
            (http.Error w (stringBytes "Internal Server Error during proxy.")
              StatusInternalServerError, net)
          | (some targetrResp, net) =>
            match targetrResp.Body with
            | none =>
              (http.Error w (stringBytes "Error reading TargetR response.")
                StatusInternalServerError, net)
            | some responseBody =>
              if targetrResp.StatusCode != StatusOK then
                (http.Error w (stringBytes "TargetR Error: " ++ responseBody)
                  targetrResp.StatusCode, net)
              else
                ((w.WriteHeader StatusOK).Write responseBody, net)

/-- The handler `main` registers for `/upload-go`. -/
def route : HandlerFunc World := corsMiddleware uploadHandler

/-- The request `uploadHandler` builds for the upstream from the inbound request `r`:
`http.NewRequest` on the constant method and URL with the inbound body, then the six
`Header.Set` calls. -/
def proxyRequestOf (r : Request) : Request :=
  let proxyReq : Request :=
    { Method := "POST", URL := TARGETR_UPLOAD_URL, Header := [], Body := r.Body }
  let proxyReq := proxyReq.setHeader "X-UploadType" (getHeaderWithDefault r "X-UploadType" "raw")
  let proxyReq := proxyReq.setHeader "X-FileName" (r.Header.Get "X-FileName")
  let proxyReq := proxyReq.setHeader "X-ItemType"
    (getHeaderWithDefault r "X-ItemType" "libraryitem")
  let proxyReq := proxyReq.setHeader "Content-Type"
    (getHeaderWithDefault r "Content-Type" "content/unknown")
  let proxyReq := proxyReq.setHeader "X-PendingId" (r.Header.Get "X-PendingId")
  proxyReq.setHeader "X-ItemId" (r.Header.Get "X-ItemId")

/-- The writer `corsMiddleware` passes on: the three headers set on `w`. -/
def withCORS (w : ResponseWriter) : ResponseWriter :=
  ((w.setHeader "Access-Control-Allow-Origin" "*").setHeader
    "Access-Control-Allow-Methods" "POST, OPTIONS").setHeader "Access-Control-Allow-Headers"
    "Content-Type, X-UploadType, X-FileName, X-ItemType, X-PendingId, X-ItemId"

/-! ## Sample inputs -/

/-- A POST upload of four bytes with a content type, a file name and a credential header. -/
def sampleRequest : Request :=
  { Method := "POST", URL := "/upload-go",
    Header := [("Content-Type", ["image/png"]), ("X-Filename", ["a.png"]),
               ("Authorization", ["Basic abc"])],
    Body := [137, 80, 78, 71] }

/-- An upstream that answers every request with 200 and a JSON body. -/
def upstreamOK : World :=
  { roundTrip := fun _ => some { StatusCode := 200,
                                 Body := some (stringBytes "\x7b\"id\":\"abc\"\x7d") },
    sent := [] }

/-- An upstream that answers every request with 503 and the body `overloaded`. -/
def upstreamOverloaded : World :=
  { roundTrip := fun _ => some { StatusCode := 503, Body := some (stringBytes "overloaded") },
    sent := [] }

/-- An upstream that answers the upload URL with `307 Temporary Redirect` to a mirror, and the
mirror with 200. -/
def upstreamRedirect : World :=
  { roundTrip := fun req =>
      if req.URL = TARGETR_UPLOAD_URL then
        some { StatusCode := 307,
               Location := Location.target "https://mirror.example/upload",
               Body := some [] }
      else some { StatusCode := 200, Body := some (stringBytes "ok") },
    sent := [] }

/-- A POST whose body is one byte longer than the limit. -/
def oversizedRequest : Request :=
  { Method := "POST", URL := "/upload-go", Header := [],
    Body := List.replicate (MAX_UPLOAD_SIZE + 1) 0 }

/-- A POST in which `X-UploadType` is present with the empty value. -/
def emptyUploadTypeRequest : Request :=
  { Method := "POST", URL := "/upload-go", Header := [("X-Uploadtype", [""])], Body := [1] }

/-- The request the handler sends upstream for `sampleRequest`. -/
def sampleProxyRequest : Request :=
  { Method := "POST", URL := "https://stacks.targetr.net/upload",
    Header := [("X-Itemid", [""]), ("X-Pendingid", [""]), ("Content-Type", ["image/png"]),
               ("X-Itemtype", ["libraryitem"]), ("X-Filename", ["a.png"]),
               ("X-Uploadtype", ["raw"])],
    Body := [137, 80, 78, 71] }

/-! ## Lemmas on header maps -/

theorem Header.entry_filter_ne (h : Header) (k key : String) (hne : key ≠ k) :
    Header.entry (h.filter (fun p => !(p.1 == k))) key = Header.entry h key := by
  induction h with
  | nil => rfl
  | cons p rest ih =>
    obtain ⟨a, vs⟩ := p
    by_cases hak : a = k
    · subst hak
      have hk : ¬ a = key := fun e => hne e.symm
      simp [List.filter, Header.entry, hk, ih]
    · have hb : (a == k) = false := by simpa using hak
      by_cases hkey : a = key
      · subst hkey
        simp [List.filter, Header.entry, hb]
      · simp [List.filter, Header.entry, hb, hkey, ih]

theorem Header.entry_Set_self (h : Header) (k v : String) :
    (h.Set k v).entry (CanonicalMIMEHeaderKey k) = some [v] := by
  simp [Header.Set, Header.entry]

theorem Header.entry_Set_ne (h : Header) (k v key : String)
    (hne : key ≠ CanonicalMIMEHeaderKey k) : (h.Set k v).entry key = h.entry key := by
  have hk : ¬ CanonicalMIMEHeaderKey k = key := fun e => hne e.symm
  simp only [Header.Set, Header.entry, hk, if_false]
  exact Header.entry_filter_ne h _ key hne

theorem Header.entry_Del_ne (h : Header) (k key : String)
    (hne : key ≠ CanonicalMIMEHeaderKey k) : (h.Del k).entry key = h.entry key :=
  Header.entry_filter_ne h _ key hne

/-! ## The redirect loop of `client.Do` -/

theorem redirectBehavior_none (m : String) (resp : Response)
    (h : resp.StatusCode ∉ [301, 302, 303, 307, 308]) : redirectBehavior m resp = none := by
  simp only [List.mem_cons, List.mem_singleton, List.not_mem_nil, or_false, not_or] at h
  obtain ⟨h1, h2, h3, h4, h5⟩ := h
  simp [redirectBehavior, h1, h2, h3, h4, h5]

theorem Client.doLoop_sent_append (rt : Request → Option Response) (ireq : Request) :
    ∀ (n : Nat) (ib : Bool) (req : Request) (sent : List Request),
      ∃ hops, (Client.doLoop rt ireq n ib req sent).2 = sent ++ hops := by
  intro n
  induction n with
  | zero =>
    intro ib req sent
    exact ⟨[], by simp [Client.doLoop]⟩
  | succ n ih =>
    intro ib req sent
    simp only [Client.doLoop]
    split
    · exact ⟨[req], rfl⟩
    · split
      · exact ⟨[req], rfl⟩
      · split
        · exact ⟨[req], rfl⟩
        · exact ⟨[req], rfl⟩
        · rename_i _ resp h1 _ m b h2 _ u h3
          obtain ⟨hops, hh⟩ := ih (ib && b)
            { Method := m, URL := u, Header := ireq.Header,
              Body := if (ib && b) = true then ireq.Body else [] } (sent ++ [req])
          exact ⟨req :: hops, by simp only [hh, List.append_assoc, List.singleton_append]⟩

/-- The request given to the loop is the first one to go out. -/
theorem Client.doLoop_sent_cons (rt : Request → Option Response) (ireq : Request)
    (n : Nat) (ib : Bool) (req : Request) (sent : List Request) :
    ∃ hops, (Client.doLoop rt ireq (n + 1) ib req sent).2 = sent ++ req :: hops := by
  simp only [Client.doLoop]
  split
  · exact ⟨[], rfl⟩
  · split
    · exact ⟨[], rfl⟩
    · split
      · exact ⟨[], rfl⟩
      · exact ⟨[], rfl⟩
      · rename_i _ resp h1 _ m b h2 _ u h3
        obtain ⟨hops, hh⟩ := Client.doLoop_sent_append rt ireq n (ib && b)
          { Method := m, URL := u, Header := ireq.Header,
            Body := if (ib && b) = true then ireq.Body else [] } (sent ++ [req])
        exact ⟨hops, by simp only [hh, List.append_assoc, List.singleton_append]⟩

/-- Only a redirect status with a `Location` target makes a second request go out. -/
theorem Client.doLoop_single (rt : Request → Option Response) (ireq : Request)
    (n : Nat) (ib : Bool) (req : Request) (sent : List Request)
    (h : ∀ (resp : Response) (u : String), rt req = some resp →
      resp.Location = Location.target u → resp.StatusCode ∉ [301, 302, 303, 307, 308]) :
    (Client.doLoop rt ireq (n + 1) ib req sent).2 = sent ++ [req] := by
  simp only [Client.doLoop]
  split
  · rfl
  · split
    · rfl
    · split
      · rfl
      · rfl
      · rename_i _ resp h1 _ m b h2 _ u h3
        have hn := redirectBehavior_none req.Method resp (h resp u h1 h3)
        rw [hn] at h2
        exact absurd h2 (by simp)

theorem Client.Do_sent (net : World) (req : Request) :
    ∃ hops, (Client.Do net req).2.sent = net.sent ++ req :: hops :=
  Client.doLoop_sent_cons net.roundTrip req 9 true req net.sent

theorem NewRequest_const (body : Bytes) :
    http.NewRequest "POST" TARGETR_UPLOAD_URL body =
      some { Method := "POST", URL := TARGETR_UPLOAD_URL, Header := [], Body := body } := by
  have h1 : http.validMethod "POST" = true := by decide
  have h2 : http.urlParseOk TARGETR_UPLOAD_URL = true := by decide
  have h3 : ¬ ("POST" = "") := by decide
  simp [http.NewRequest, h1, h2, h3]

theorem uploadHandler_not_post (w : ResponseWriter) (r : Request) (net : World)
    (hm : r.Method ≠ "POST") :
    uploadHandler w r net =
      (http.Error w (stringBytes "Method not allowed") StatusMethodNotAllowed, net) := by
  simp [uploadHandler, MethodPost, hm]

theorem uploadHandler_too_large (w : ResponseWriter) (r : Request) (net : World)
    (hm : r.Method = "POST") (hlen : MAX_UPLOAD_SIZE < r.Body.length) :
    uploadHandler w r net =
      (http.Error w.requestTooLarge (stringBytes "Error reading request body")
        StatusBadRequest, net) := by
  have h : ¬ r.Body.length ≤ MAX_UPLOAD_SIZE := Nat.not_le.mpr hlen
  simp [uploadHandler, MethodPost, hm, io.ReadAll, http.MaxBytesReader, h]

theorem uploadHandler_empty (w : ResponseWriter) (r : Request) (net : World)
    (hm : r.Method = "POST") (hb : r.Body = []) :
    uploadHandler w r net =
      (http.Error w (stringBytes "File body is missing or empty.") StatusBadRequest, net) := by
  simp [uploadHandler, MethodPost, hm, io.ReadAll, http.MaxBytesReader, hb]

theorem uploadHandler_forward (w : ResponseWriter) (r : Request) (net : World)
    (hm : r.Method = "POST") (h1 : r.Body ≠ []) (h2 : r.Body.length ≤ MAX_UPLOAD_SIZE) :
    uploadHandler w r net =
      (match (Client.Do net (proxyRequestOf r)).1 with
        | none => http.Error w (stringBytes "Internal Server Error during proxy.")
            StatusInternalServerError
        | some targetrResp =>
          match targetrResp.Body with
          | none => http.Error w (stringBytes "Error reading TargetR response.")
              StatusInternalServerError
          | some responseBody =>
            if targetrResp.StatusCode != StatusOK then
              http.Error w (stringBytes "TargetR Error: " ++ responseBody) targetrResp.StatusCode
            else (w.WriteHeader StatusOK).Write responseBody,
       (Client.Do net (proxyRequestOf r)).2) := by
  simp only [uploadHandler, MethodPost, hm, io.ReadAll, http.MaxBytesReader, h2, NewRequest_const]
  simp only [bne_self_eq_false, Bool.false_eq_true, if_false, if_true]
  have hl : (r.Body.length == 0) = false := by
    simp [h1]
  simp only [hl, Bool.false_eq_true, if_false]
  show (match Client.Do net (proxyRequestOf r) with
        | (none, net) => _
        | (some targetrResp, net) => _) = _
  cases hd : (Client.Do net (proxyRequestOf r)) with
  | mk a b =>
    cases a with
    | none => rfl
    | some resp =>
      cases hb : resp.Body with
      | none => simp [hb]
      | some B => by_cases hs : resp.StatusCode = StatusOK <;> simp [hb, hs]

theorem uploadHandler_forward_world (w : ResponseWriter) (r : Request) (net : World)
    (hm : r.Method = "POST") (h1 : r.Body ≠ []) (h2 : r.Body.length ≤ MAX_UPLOAD_SIZE) :
    (uploadHandler w r net).2 = (Client.Do net (proxyRequestOf r)).2 := by
  rw [uploadHandler_forward w r net hm h1 h2]

/-- A request is forwarded exactly on the last path of `uploadHandler`: when the list of requests
sent grew, with `pr` the first new one, the method is POST, the body is not empty and within the
limit, and `pr` is the request built from `r`. -/
theorem forward_of_sent (w : ResponseWriter) (r : Request) (net : World) (pr : Request)
    (rest : List Request) (h : (uploadHandler w r net).2.sent = net.sent ++ pr :: rest) :
    r.Method = "POST" ∧ r.Body ≠ [] ∧ r.Body.length ≤ MAX_UPLOAD_SIZE ∧
      pr = proxyRequestOf r := by
  by_cases hm : r.Method = "POST"
  · by_cases hlen : r.Body.length ≤ MAX_UPLOAD_SIZE
    · by_cases hb : r.Body = []
      · rw [uploadHandler_empty w r net hm hb] at h
        simp at h
      · rw [uploadHandler_forward_world w r net hm hb hlen] at h
        obtain ⟨hops, hh⟩ := Client.Do_sent net (proxyRequestOf r)
        rw [hh] at h
        have h' := List.append_cancel_left h
        simp only [List.cons.injEq] at h'
        exact ⟨hm, hb, hlen, h'.1.symm⟩
    · rw [uploadHandler_too_large w r net hm (Nat.not_le.mp hlen)] at h
      simp at h
  · rw [uploadHandler_not_post w r net hm] at h
    simp at h

/-! ## What `http.Error` and the success path send -/

theorem Error_valid (w : ResponseWriter) (msg : Bytes) (code : Int)
    (hp : w.panicked = false) (hw : w.wroteHeader = false)
    (hc : checkWriteHeaderCode code = false) :
    (http.Error w msg code).panicked = false ∧ (http.Error w msg code).wroteHeader = true ∧
      (http.Error w msg code).status = code ∧
      (http.Error w msg code).body =
        (if bodyAllowedForStatus code then w.body ++ (msg ++ stringBytes "\n") else w.body) := by
  by_cases hb : bodyAllowedForStatus code = true <;>
  simp [http.Error, ResponseWriter.Write, ResponseWriter.WriteHeader, ResponseWriter.setHeader,
    ResponseWriter.delHeader, hp, hw, hc, hb]

theorem Error_sentHeader (w : ResponseWriter) (msg : Bytes) (code : Int)
    (hp : w.panicked = false) (hw : w.wroteHeader = false)
    (hc : checkWriteHeaderCode code = false) (k : String)
    (h1 : k ≠ CanonicalMIMEHeaderKey "Content-Length")
    (h2 : k ≠ CanonicalMIMEHeaderKey "Content-Type")
    (h3 : k ≠ CanonicalMIMEHeaderKey "X-Content-Type-Options") :
    (http.Error w msg code).sentHeader.entry k = w.header.entry k := by
  by_cases hb : bodyAllowedForStatus code = true <;>
  simp [http.Error, ResponseWriter.Write, ResponseWriter.WriteHeader, ResponseWriter.setHeader,
    ResponseWriter.delHeader, hp, hw, hc, hb, Header.entry_Set_ne _ _ _ _ h3,
    Header.entry_Set_ne _ _ _ _ h2, Header.entry_Del_ne _ _ _ h1]

/-- With a status outside 100..999 `http.Error` panics in `WriteHeader`. -/
theorem Error_invalid (w : ResponseWriter) (msg : Bytes) (code : Int)
    (hp : w.panicked = false) (hw : w.wroteHeader = false)
    (hc : checkWriteHeaderCode code = true) :
    (http.Error w msg code).panicked = true := by
  simp [http.Error, ResponseWriter.Write, ResponseWriter.WriteHeader, ResponseWriter.setHeader,
    ResponseWriter.delHeader, hp, hw, hc]

theorem success_status (w : ResponseWriter) (B : Bytes)
    (hp : w.panicked = false) (hw : w.wroteHeader = false) :
    ((w.WriteHeader StatusOK).Write B).panicked = false ∧
      ((w.WriteHeader StatusOK).Write B).wroteHeader = true ∧
      ((w.WriteHeader StatusOK).Write B).status = StatusOK ∧
      ((w.WriteHeader StatusOK).Write B).body = w.body ++ B ∧
      ((w.WriteHeader StatusOK).Write B).sentHeader = w.header := by
  have h1 : checkWriteHeaderCode StatusOK = false := by decide
  have h2 : bodyAllowedForStatus StatusOK = true := by decide
  simp [ResponseWriter.Write, ResponseWriter.WriteHeader, hp, hw, h1, h2]

theorem requestTooLarge_spec (w : ResponseWriter)
    (hp : w.panicked = false) (hw : w.wroteHeader = false) (k : String)
    (hk : k ≠ CanonicalMIMEHeaderKey "Connection") :
    w.requestTooLarge.panicked = false ∧ w.requestTooLarge.wroteHeader = false ∧
      w.requestTooLarge.body = w.body ∧
      w.requestTooLarge.header.entry k = w.header.entry k := by
  simp [ResponseWriter.requestTooLarge, ResponseWriter.setHeader, hp, hw,
    Header.entry_Set_ne _ _ _ _ hk]

theorem corsMiddleware_options {σ : Type} (next : HandlerFunc σ) (w : ResponseWriter)
    (r : Request) (s : σ) (hm : r.Method = "OPTIONS") :
    corsMiddleware next w r s = ((withCORS w).WriteHeader StatusOK, s) := by
  simp [corsMiddleware, withCORS, MethodOptions, hm]

theorem corsMiddleware_other {σ : Type} (next : HandlerFunc σ) (w : ResponseWriter)
    (r : Request) (s : σ) (hm : r.Method ≠ "OPTIONS") :
    corsMiddleware next w r s = next (withCORS w) r s := by
  simp [corsMiddleware, withCORS, MethodOptions, hm]

theorem withCORS_spec (w : ResponseWriter) (hp : w.panicked = false) :
    (withCORS w).panicked = false ∧
    (withCORS w).wroteHeader = w.wroteHeader ∧ (withCORS w).body = w.body ∧
    (withCORS w).header.entry (CanonicalMIMEHeaderKey "Access-Control-Allow-Origin") =
      some ["*"] ∧
    (withCORS w).header.entry (CanonicalMIMEHeaderKey "Access-Control-Allow-Methods") =
      some ["POST, OPTIONS"] ∧
    (withCORS w).header.entry (CanonicalMIMEHeaderKey "Access-Control-Allow-Headers") =
      some ["Content-Type, X-UploadType, X-FileName, X-ItemType, X-PendingId, X-ItemId"] := by
  refine ⟨?_, ?_, ?_, ?_, ?_, ?_⟩
  · simp [withCORS, ResponseWriter.setHeader, hp]
  · simp [withCORS, ResponseWriter.setHeader, hp]
  · simp [withCORS, ResponseWriter.setHeader, hp]
  · simp only [withCORS, ResponseWriter.setHeader, hp, Bool.false_eq_true, if_false]
    rw [Header.entry_Set_ne _ _ _ _ (by decide), Header.entry_Set_ne _ _ _ _ (by decide),
      Header.entry_Set_self]
  · simp only [withCORS, ResponseWriter.setHeader, hp, Bool.false_eq_true, if_false]
    rw [Header.entry_Set_ne _ _ _ _ (by decide), Header.entry_Set_self]
  · simp only [withCORS, ResponseWriter.setHeader, hp, Bool.false_eq_true, if_false]
    rw [Header.entry_Set_self]

/-! ## What the server sends for a handler -/

theorem serve_some {σ : Type} (h : HandlerFunc σ) (r : Request) (s : σ)
    (hp : (h ResponseWriter.new r s).1.panicked = false)
    (hw : (h ResponseWriter.new r s).1.wroteHeader = true) :
    (serve h r s).1 = some { status := (h ResponseWriter.new r s).1.status,
                             header := (h ResponseWriter.new r s).1.sentHeader,
                             body := (h ResponseWriter.new r s).1.body } := by
  simp [serve, hp, hw]

theorem serve_none {σ : Type} (h : HandlerFunc σ) (r : Request) (s : σ)
    (hp : (h ResponseWriter.new r s).1.panicked = true) : (serve h r s).1 = none := by
  simp [serve, hp]

theorem serve_panicked_of_none {σ : Type} (h : HandlerFunc σ) (r : Request) (s : σ)
    (hn : (serve h r s).1 = none) : (h ResponseWriter.new r s).1.panicked = true := by
  by_cases hp : (h ResponseWriter.new r s).1.panicked = true
  · exact hp
  · simp [serve, hp] at hn

theorem serve_snd {σ : Type} (h : HandlerFunc σ) (r : Request) (s : σ) :
    (serve h r s).2 = (h ResponseWriter.new r s).2 := by
  by_cases hp : (h ResponseWriter.new r s).1.panicked = true <;> simp [serve, hp]

theorem route_of_not_options (w : ResponseWriter) (r : Request) (net : World)
    (hm : r.Method ≠ "OPTIONS") : route w r net = uploadHandler (withCORS w) r net :=
  corsMiddleware_other uploadHandler w r net hm

theorem Header.Get_of_entry_cons (h : Header) (key v : String) (vs : List String)
    (he : h.entry (CanonicalMIMEHeaderKey key) = some (v :: vs)) : h.Get key = v := by
  simp [Header.Get, he]

theorem Header.Get_of_entry_none (h : Header) (key : String)
    (he : h.entry (CanonicalMIMEHeaderKey key) = none) : h.Get key = "" := by
  simp [Header.Get, he]

theorem Header.Get_of_entry_nil (h : Header) (key : String)
    (he : h.entry (CanonicalMIMEHeaderKey key) = some []) : h.Get key = "" := by
  simp [Header.Get, he]

theorem getHeaderWithDefault_eq (r : Request) (key d : String) :
    getHeaderWithDefault r key d = if r.Header.Get key = "" then d else r.Header.Get key := by
  simp [getHeaderWithDefault]

/-- The outcome of `uploadHandler` on a writer that has sent nothing: either it sends a status,
and a header that neither `http.Error` nor `requestTooLarge` touches goes out as it was in the
writer the handler was given; or it panics, which happens only when the request was forwarded
and `client.Do` returned a readable response with a status outside 100..999. -/
theorem uploadHandler_outcome (w : ResponseWriter) (r : Request) (net : World)
    (hp : w.panicked = false) (hw : w.wroteHeader = false) :
    ((uploadHandler w r net).1.panicked = false ∧ (uploadHandler w r net).1.wroteHeader = true ∧
      ∀ k : String, k ≠ CanonicalMIMEHeaderKey "Content-Length" →
        k ≠ CanonicalMIMEHeaderKey "Content-Type" →
        k ≠ CanonicalMIMEHeaderKey "X-Content-Type-Options" →
        k ≠ CanonicalMIMEHeaderKey "Connection" →
        (uploadHandler w r net).1.sentHeader.entry k = w.header.entry k) ∨
    ((uploadHandler w r net).1.panicked = true ∧
      ∃ resp : Response, (Client.Do net (proxyRequestOf r)).1 = some resp ∧
        (uploadHandler w r net).2 = (Client.Do net (proxyRequestOf r)).2 ∧
        checkWriteHeaderCode resp.StatusCode = true) := by
  have c400 : checkWriteHeaderCode StatusBadRequest = false := by decide
  have c405 : checkWriteHeaderCode StatusMethodNotAllowed = false := by decide
  have c500 : checkWriteHeaderCode StatusInternalServerError = false := by decide
  have good : ∀ (msg : Bytes) (code : Int), checkWriteHeaderCode code = false →
      (http.Error w msg code).panicked = false ∧ (http.Error w msg code).wroteHeader = true ∧
      ∀ k : String, k ≠ CanonicalMIMEHeaderKey "Content-Length" →
        k ≠ CanonicalMIMEHeaderKey "Content-Type" →
        k ≠ CanonicalMIMEHeaderKey "X-Content-Type-Options" →
        k ≠ CanonicalMIMEHeaderKey "Connection" →
        (http.Error w msg code).sentHeader.entry k = w.header.entry k := by
    intro msg code hc
    obtain ⟨e1, e2, _, _⟩ := Error_valid w msg code hp hw hc
    exact ⟨e1, e2, fun k k1 k2 k3 _ => Error_sentHeader w msg code hp hw hc k k1 k2 k3⟩
  by_cases hm : r.Method = "POST"
  · by_cases hlen : r.Body.length ≤ MAX_UPLOAD_SIZE
    · by_cases hb : r.Body = []
      · rw [uploadHandler_empty w r net hm hb]
        exact Or.inl (good _ _ c400)
      · rw [uploadHandler_forward w r net hm hb hlen]
        dsimp only
        cases hd : (Client.Do net (proxyRequestOf r)).1 with
        | none => exact Or.inl (good _ _ c500)
        | some resp =>
          dsimp only
          cases hbody : resp.Body with
          | none => exact Or.inl (good _ _ c500)
          | some B =>
            dsimp only
            by_cases hs : resp.StatusCode = StatusOK
            · have hne : (resp.StatusCode != StatusOK) = false := by simp [hs]
              rw [hne]
              obtain ⟨s1, s2, _, _, s5⟩ := success_status w B hp hw
              refine Or.inl ⟨s1, s2, fun k _ _ _ _ => ?_⟩
              simp only [Bool.false_eq_true, if_false]
              rw [s5]
            · have hne : (resp.StatusCode != StatusOK) = true := by simp [hs]
              rw [hne]
              simp only [if_true]
              by_cases hc : checkWriteHeaderCode resp.StatusCode = true
              · exact Or.inr ⟨Error_invalid w _ _ hp hw hc, resp, rfl, trivial, hc⟩
              · exact Or.inl (good _ _ (by simpa using hc))
    · rw [uploadHandler_too_large w r net hm (Nat.not_le.mp hlen)]
      obtain ⟨q0, q1, _, _⟩ := requestTooLarge_spec w hp hw "" (by decide)
      obtain ⟨e1, e2, _, _⟩ := Error_valid w.requestTooLarge
        (stringBytes "Error reading request body") StatusBadRequest q0 q1 c400
      refine Or.inl ⟨e1, e2, fun k k1 k2 k3 k4 => ?_⟩
      rw [Error_sentHeader _ _ _ q0 q1 c400 k k1 k2 k3]
      exact (requestTooLarge_spec w hp hw k k4).2.2.2
  · rw [uploadHandler_not_post w r net hm]
    exact Or.inl (good _ _ c405)

theorem oversizedRequest_length : oversizedRequest.Body.length = MAX_UPLOAD_SIZE + 1 :=
  List.length_replicate (MAX_UPLOAD_SIZE + 1) (0 : UInt8)

/-- What the bare handler and the registered route send when, on every fresh writer, the
handler ends with the status `st` and the body `bd`. -/
theorem serve_upload_and_route (r : Request) (net : World) (hmo : r.Method ≠ "OPTIONS")
    (st : Int) (bd : Bytes)
    (key : ∀ w : ResponseWriter, w.panicked = false → w.wroteHeader = false → w.body = [] →
      (uploadHandler w r net).1.panicked = false ∧ (uploadHandler w r net).1.wroteHeader = true ∧
      (uploadHandler w r net).1.status = st ∧ (uploadHandler w r net).1.body = bd) :
    Option.map Reply.status (serve uploadHandler r net).1 = some st ∧
    Option.map Reply.body (serve uploadHandler r net).1 = some bd ∧
    Option.map Reply.status (serve route r net).1 = some st ∧
    Option.map Reply.body (serve route r net).1 = some bd := by
  obtain ⟨a0, a1, a2, a3⟩ := key ResponseWriter.new rfl rfl rfl
  obtain ⟨c0, c1, c2, _, _, _⟩ := withCORS_spec ResponseWriter.new rfl
  obtain ⟨b0, b1, b2, b3⟩ := key (withCORS ResponseWriter.new) c0 c1 c2
  have hroute := route_of_not_options ResponseWriter.new r net hmo
  rw [serve_some uploadHandler r net a0 a1,
    serve_some route r net (by rw [hroute]; exact b0) (by rw [hroute]; exact b1), hroute]
  simp only [Option.map_some', a2, a3, b2, b3, and_self]

/-! ## The claims -/

/-- C1, as the spec states it, fails: the upstream answers the upload of `sampleRequest` (a POST
with a body of four bytes) with `307 Temporary Redirect`, the client of `uploadHandler` follows
it, and two requests go out, both POSTs with the inbound body, the second one to another
URL. -/
theorem C1_counterexample_redirect_followed :
    sampleRequest.Method = "POST" ∧ sampleRequest.Body.length = 4 ∧
    (uploadHandler ResponseWriter.new sampleRequest upstreamRedirect).2.sent.length = 2 ∧
    (uploadHandler ResponseWriter.new sampleRequest upstreamRedirect).2.sent.map Request.URL =
      ["https://stacks.targetr.net/upload", "https://mirror.example/upload"] ∧
    (uploadHandler ResponseWriter.new sampleRequest upstreamRedirect).2.sent.map
      Request.Method = ["POST", "POST"] ∧
    (uploadHandler ResponseWriter.new sampleRequest upstreamRedirect).2.sent.map Request.Body =
      [sampleRequest.Body, sampleRequest.Body] ∧
    "https://mirror.example/upload" ≠ "https://stacks.targetr.net/upload" :=
  ⟨by decide, by decide, by decide, by decide, by decide, by decide, by decide⟩

/-- C1, amended: for every inbound POST whose body has length n with 1 ≤ n ≤ 104857600,
`uploadHandler` (called directly or behind `corsMiddleware`, on any writer) calls `client.Do`
exactly once; the request it hands over is a POST to `https://stacks.targetr.net/upload` whose
body is the inbound body, byte for byte; it is the first request to go out, and the only one
unless the upstream answers it with a redirect (301, 302, 303, 307 or 308 with a `Location`),
which the client follows. -/
theorem C1_one_call_with_same_body (w : ResponseWriter) (r : Request) (net : World)
    (hm : r.Method = "POST") (h1 : 1 ≤ r.Body.length) (h2 : r.Body.length ≤ 104857600) :
    ∃ (pr : Request) (hops : List Request),
      (uploadHandler w r net).2 = (Client.Do net pr).2 ∧
      (route w r net).2 = (Client.Do net pr).2 ∧
      (Client.Do net pr).2.sent = net.sent ++ pr :: hops ∧
      pr.Method = "POST" ∧ pr.URL = "https://stacks.targetr.net/upload" ∧
      pr.Body = r.Body ∧ pr.Body.length = r.Body.length ∧
      ((∀ (resp : Response) (u : String), net.roundTrip pr = some resp →
          resp.Location = Location.target u →
          resp.StatusCode ∉ [301, 302, 303, 307, 308]) → hops = []) := by
  have hb : r.Body ≠ [] := by
    intro h
    rw [h] at h1
    simp at h1
  have hmo : r.Method ≠ "OPTIONS" := by
    rw [hm]
    decide
  obtain ⟨hops, hh⟩ := Client.Do_sent net (proxyRequestOf r)
  refine ⟨proxyRequestOf r, hops, uploadHandler_forward_world w r net hm hb h2, ?_, hh,
    rfl, rfl, rfl, rfl, ?_⟩
  · rw [route_of_not_options w r net hmo]
    exact uploadHandler_forward_world _ r net hm hb h2
  · intro hno
    have hs := Client.doLoop_single net.roundTrip (proxyRequestOf r) 9 true (proxyRequestOf r)
      net.sent hno
    have : (Client.Do net (proxyRequestOf r)).2.sent = net.sent ++ [proxyRequestOf r] := hs
    rw [this] at hh
    have h' := List.append_cancel_left hh
    simp only [List.cons.injEq, true_and] at h'
    exact h'.symm

theorem C1_witness :
    ∃ (pr : Request) (hops : List Request),
      (uploadHandler ResponseWriter.new sampleRequest upstreamOK).2 =
        (Client.Do upstreamOK pr).2 ∧
      (route ResponseWriter.new sampleRequest upstreamOK).2 = (Client.Do upstreamOK pr).2 ∧
      (Client.Do upstreamOK pr).2.sent = upstreamOK.sent ++ pr :: hops ∧
      pr.Method = "POST" ∧ pr.URL = "https://stacks.targetr.net/upload" ∧
      pr.Body = sampleRequest.Body ∧ pr.Body.length = sampleRequest.Body.length ∧
      ((∀ (resp : Response) (u : String), upstreamOK.roundTrip pr = some resp →
          resp.Location = Location.target u →
          resp.StatusCode ∉ [301, 302, 303, 307, 308]) → hops = []) :=
  C1_one_call_with_same_body ResponseWriter.new sampleRequest upstreamOK
    (by decide) (by decide) (by decide)

/-- C5: for every inbound POST whose body is empty, whatever its headers, the response status is
400 and no request goes out to the upstream, both for the bare handler and for the registered
route. -/
theorem C5_empty_body_rejected (r : Request) (net : World)
    (hm : r.Method = "POST") (hb : r.Body.length = 0) :
    Option.map Reply.status (serve uploadHandler r net).1 = some 400 ∧
    (serve uploadHandler r net).2.sent = net.sent ∧
    Option.map Reply.status (serve route r net).1 = some 400 ∧
    (serve route r net).2.sent = net.sent := by
  have hb2 : r.Body = [] := List.length_eq_zero.mp hb
  have hmo : r.Method ≠ "OPTIONS" := by
    rw [hm]
    decide
  have key : ∀ w : ResponseWriter, w.panicked = false → w.wroteHeader = false → w.body = [] →
      (uploadHandler w r net).1.panicked = false ∧ (uploadHandler w r net).1.wroteHeader = true ∧
      (uploadHandler w r net).1.status = 400 ∧
      (uploadHandler w r net).1.body =
        stringBytes "File body is missing or empty." ++ stringBytes "\n" := by
    intro w hp hw hwb
    rw [uploadHandler_empty w r net hm hb2]
    obtain ⟨e1, e2, e3, e4⟩ := Error_valid w (stringBytes "File body is missing or empty.")
      StatusBadRequest hp hw (by decide)
    refine ⟨e1, e2, e3, ?_⟩
    rw [e4, hwb, if_pos (by decide)]
    rfl
  obtain ⟨q1, _, q3, _⟩ := serve_upload_and_route r net hmo 400 _ key
  refine ⟨q1, ?_, q3, ?_⟩
  · rw [serve_snd, uploadHandler_empty _ r net hm hb2]
  · rw [serve_snd, route_of_not_options _ r net hmo, uploadHandler_empty _ r net hm hb2]

theorem C5_witness :
    Option.map Reply.status
      (serve uploadHandler { sampleRequest with Body := [] } upstreamOK).1 = some 400 ∧
    (serve uploadHandler { sampleRequest with Body := [] } upstreamOK).2.sent =
      upstreamOK.sent ∧
    Option.map Reply.status
      (serve route { sampleRequest with Body := [] } upstreamOK).1 = some 400 ∧
    (serve route { sampleRequest with Body := [] } upstreamOK).2.sent = upstreamOK.sent :=
  C5_empty_body_rejected { sampleRequest with Body := [] } upstreamOK (by decide) (by decide)

/-- C6: for every inbound POST whose body is longer than 104857600 bytes, the request is
rejected: the response status is 400 (so it is 413 or 400) and no request goes out to the
upstream, both for the bare handler and for the registered route. -/
theorem C6_oversized_body_rejected (r : Request) (net : World)
    (hm : r.Method = "POST") (hlen : 104857600 < r.Body.length) :
    (Option.map Reply.status (serve uploadHandler r net).1 = some 413 ∨
      Option.map Reply.status (serve uploadHandler r net).1 = some 400) ∧
    Option.map Reply.status (serve uploadHandler r net).1 = some 400 ∧
    (serve uploadHandler r net).2.sent = net.sent ∧
    (Option.map Reply.status (serve route r net).1 = some 413 ∨
      Option.map Reply.status (serve route r net).1 = some 400) ∧
    Option.map Reply.status (serve route r net).1 = some 400 ∧
    (serve route r net).2.sent = net.sent := by
  have hmo : r.Method ≠ "OPTIONS" := by
    rw [hm]
    decide
  have key : ∀ w : ResponseWriter, w.panicked = false → w.wroteHeader = false → w.body = [] →
      (uploadHandler w r net).1.panicked = false ∧ (uploadHandler w r net).1.wroteHeader = true ∧
      (uploadHandler w r net).1.status = 400 ∧
      (uploadHandler w r net).1.body =
        stringBytes "Error reading request body" ++ stringBytes "\n" := by
    intro w hp hw hwb
    rw [uploadHandler_too_large w r net hm hlen]
    obtain ⟨q0, q1, q2, _⟩ := requestTooLarge_spec w hp hw "" (by decide)
    obtain ⟨e1, e2, e3, e4⟩ := Error_valid w.requestTooLarge
      (stringBytes "Error reading request body") StatusBadRequest q0 q1 (by decide)
    refine ⟨e1, e2, e3, ?_⟩
    rw [e4, q2, hwb, if_pos (by decide)]
    rfl
  obtain ⟨q1, _, q3, _⟩ := serve_upload_and_route r net hmo 400 _ key
  refine ⟨Or.inr q1, q1, ?_, Or.inr q3, q3, ?_⟩
  · rw [serve_snd, uploadHandler_too_large _ r net hm hlen]
  · rw [serve_snd, route_of_not_options _ r net hmo, uploadHandler_too_large _ r net hm hlen]

theorem C6_witness :
    (Option.map Reply.status (serve uploadHandler oversizedRequest upstreamOK).1 = some 413 ∨
      Option.map Reply.status (serve uploadHandler oversizedRequest upstreamOK).1 = some 400) ∧
    Option.map Reply.status (serve uploadHandler oversizedRequest upstreamOK).1 = some 400 ∧
    (serve uploadHandler oversizedRequest upstreamOK).2.sent = upstreamOK.sent ∧
    (Option.map Reply.status (serve route oversizedRequest upstreamOK).1 = some 413 ∨
      Option.map Reply.status (serve route oversizedRequest upstreamOK).1 = some 400) ∧
    Option.map Reply.status (serve route oversizedRequest upstreamOK).1 = some 400 ∧
    (serve route oversizedRequest upstreamOK).2.sent = upstreamOK.sent :=
  C6_oversized_body_rejected oversizedRequest upstreamOK rfl
    (by rw [oversizedRequest_length]; decide)

/-- C7: for every request with method OPTIONS and every wrapped handler `next`, the answer of
`corsMiddleware next` is the same fixed reply whatever `next` is: status 200, an empty body, the
three CORS headers; the state of the world is the one before the request, so `next` was not run,
and for `next = uploadHandler` no request went out to the upstream. -/
theorem C7_preflight_short_circuits {σ : Type} (next : HandlerFunc σ) (r : Request) (s : σ)
    (net : World) (hm : r.Method = "OPTIONS") :
    serve (corsMiddleware next) r s =
      (some { status := 200,
              header := [("Access-Control-Allow-Headers",
                ["Content-Type, X-UploadType, X-FileName, X-ItemType, X-PendingId, X-ItemId"]),
                ("Access-Control-Allow-Methods", ["POST, OPTIONS"]),
                ("Access-Control-Allow-Origin", ["*"])],
              body := [] }, s) ∧
    Option.map Reply.status (serve (corsMiddleware next) r s).1 = some 200 ∧
    Option.map Reply.body (serve (corsMiddleware next) r s).1 = some [] ∧
    Option.map (fun reply => reply.header.Get "Access-Control-Allow-Origin")
      (serve (corsMiddleware next) r s).1 = some "*" ∧
    Option.map (fun reply => reply.header.Get "Access-Control-Allow-Methods")
      (serve (corsMiddleware next) r s).1 = some "POST, OPTIONS" ∧
    Option.map (fun reply => reply.header.Get "Access-Control-Allow-Headers")
      (serve (corsMiddleware next) r s).1 =
      some "Content-Type, X-UploadType, X-FileName, X-ItemType, X-PendingId, X-ItemId" ∧
    (serve (corsMiddleware next) r s).2 = s ∧
    (serve (corsMiddleware uploadHandler) r net).2.sent = net.sent := by
  have h : ∀ (τ : Type) (nx : HandlerFunc τ) (t : τ), serve (corsMiddleware nx) r t =
      (some { status := 200,
              header := [("Access-Control-Allow-Headers",
                ["Content-Type, X-UploadType, X-FileName, X-ItemType, X-PendingId, X-ItemId"]),
                ("Access-Control-Allow-Methods", ["POST, OPTIONS"]),
                ("Access-Control-Allow-Origin", ["*"])],
              body := [] }, t) := by
    intro τ nx t
    simp only [serve, corsMiddleware_options nx _ r t hm]
    rfl
  refine ⟨h σ next s, ?_, ?_, ?_, ?_, ?_, ?_, ?_⟩
  · rw [h σ next s]; rfl
  · rw [h σ next s]; rfl
  · rw [h σ next s]; rfl
  · rw [h σ next s]; rfl
  · rw [h σ next s]; rfl
  · rw [h σ next s]
  · rw [h World uploadHandler net]

theorem C7_witness :
    serve (corsMiddleware uploadHandler) { sampleRequest with Method := "OPTIONS" } upstreamOK =
      (some { status := 200,
              header := [("Access-Control-Allow-Headers",
                ["Content-Type, X-UploadType, X-FileName, X-ItemType, X-PendingId, X-ItemId"]),
                ("Access-Control-Allow-Methods", ["POST, OPTIONS"]),
                ("Access-Control-Allow-Origin", ["*"])],
              body := [] }, upstreamOK) ∧
    Option.map Reply.status (serve (corsMiddleware uploadHandler)
      { sampleRequest with Method := "OPTIONS" } upstreamOK).1 = some 200 ∧
    Option.map Reply.body (serve (corsMiddleware uploadHandler)
      { sampleRequest with Method := "OPTIONS" } upstreamOK).1 = some [] :=
  have h := C7_preflight_short_circuits uploadHandler { sampleRequest with Method := "OPTIONS" }
    upstreamOK upstreamOK rfl
  ⟨h.1, h.2.1, h.2.2.1⟩

/-- C8: for every request to `corsMiddleware uploadHandler` whose method is neither POST nor
OPTIONS, whatever its body and headers, the response status is 405 and no request goes out to
the upstream. -/
theorem C8_other_methods_rejected (r : Request) (net : World)
    (h1 : r.Method ≠ "POST") (h2 : r.Method ≠ "OPTIONS") :
    Option.map Reply.status (serve (corsMiddleware uploadHandler) r net).1 = some 405 ∧
    (serve (corsMiddleware uploadHandler) r net).2.sent = net.sent := by
  have key : ∀ w : ResponseWriter, w.panicked = false → w.wroteHeader = false → w.body = [] →
      (uploadHandler w r net).1.panicked = false ∧ (uploadHandler w r net).1.wroteHeader = true ∧
      (uploadHandler w r net).1.status = 405 ∧
      (uploadHandler w r net).1.body = stringBytes "Method not allowed" ++ stringBytes "\n" := by
    intro w hp hw hwb
    rw [uploadHandler_not_post w r net h1]
    obtain ⟨e1, e2, e3, e4⟩ := Error_valid w (stringBytes "Method not allowed")
      StatusMethodNotAllowed hp hw (by decide)
    refine ⟨e1, e2, e3, ?_⟩
    rw [e4, hwb, if_pos (by decide)]
    rfl
  obtain ⟨_, _, q3, _⟩ := serve_upload_and_route r net h2 405 _ key
  refine ⟨q3, ?_⟩
  rw [serve_snd]
  show (route ResponseWriter.new r net).2.sent = net.sent
  rw [route_of_not_options _ r net h2, uploadHandler_not_post _ r net h1]

theorem C8_witness :
    Option.map Reply.status (serve (corsMiddleware uploadHandler)
      { sampleRequest with Method := "GET" } upstreamOK).1 = some 405 ∧
    (serve (corsMiddleware uploadHandler) { sampleRequest with Method := "GET" }
      upstreamOK).2.sent = upstreamOK.sent :=
  C8_other_methods_rejected { sampleRequest with Method := "GET" } upstreamOK
    (by decide) (by decide)

/-- C9: every response of `corsMiddleware uploadHandler`, for every request and every behaviour
of the upstream (preflight, 405, 400, 500, relayed upstream error, relayed 200), goes out with
`Access-Control-Allow-Origin: *`, `Access-Control-Allow-Methods: POST, OPTIONS` and
`Access-Control-Allow-Headers: Content-Type, X-UploadType, X-FileName, X-ItemType, X-PendingId,
X-ItemId`, each with exactly that one value: no later step removes or overwrites them. A
response is produced in every case but one: the request was forwarded and `client.Do` returned
a status outside 100..999, on which the handler panics and nothing is sent. -/
theorem C9_cors_headers_on_every_response (r : Request) (net : World) :
    (∀ reply : Reply, (serve (corsMiddleware uploadHandler) r net).1 = some reply →
      reply.header.entry (CanonicalMIMEHeaderKey "Access-Control-Allow-Origin") =
        some ["*"] ∧
      reply.header.entry (CanonicalMIMEHeaderKey "Access-Control-Allow-Methods") =
        some ["POST, OPTIONS"] ∧
      reply.header.entry (CanonicalMIMEHeaderKey "Access-Control-Allow-Headers") =
        some ["Content-Type, X-UploadType, X-FileName, X-ItemType, X-PendingId, X-ItemId"]) ∧
    ((serve (corsMiddleware uploadHandler) r net).1 = none →
      ∃ (pr : Request) (hops : List Request) (resp : Response),
        (serve (corsMiddleware uploadHandler) r net).2.sent = net.sent ++ pr :: hops ∧
        (Client.Do net pr).1 = some resp ∧
        (resp.StatusCode < 100 ∨ 999 < resp.StatusCode)) := by
  obtain ⟨c0, c1, _, c3, c4, c5⟩ := withCORS_spec ResponseWriter.new rfl
  by_cases hm : r.Method = "OPTIONS"
  · have h : serve (corsMiddleware uploadHandler) r net =
        (some { status := 200,
                header := (withCORS ResponseWriter.new).header,
                body := [] }, net) := by
      simp only [serve, corsMiddleware_options uploadHandler _ r net hm]
      rfl
    constructor
    · intro reply hr
      rw [h] at hr
      simp only [Option.some.injEq] at hr
      subst hr
      exact ⟨c3, c4, c5⟩
    · intro hn
      rw [h] at hn
      simp at hn
  · have hroute : corsMiddleware uploadHandler ResponseWriter.new r net =
        uploadHandler (withCORS ResponseWriter.new) r net := corsMiddleware_other _ _ r net hm
    rcases uploadHandler_outcome (withCORS ResponseWriter.new) r net c0 c1 with
      ⟨u0, u1, u2⟩ | ⟨u0, resp, u1, u2, u3⟩
    · constructor
      · intro reply hr
        rw [serve_some _ r net (by rw [hroute]; exact u0) (by rw [hroute]; exact u1)] at hr
        simp only [Option.some.injEq] at hr
        subst hr
        simp only [hroute]
        rw [u2 _ (by decide) (by decide) (by decide) (by decide),
          u2 _ (by decide) (by decide) (by decide) (by decide),
          u2 _ (by decide) (by decide) (by decide) (by decide)]
        exact ⟨c3, c4, c5⟩
      · intro hn
        have hp := serve_panicked_of_none _ r net hn
        rw [hroute, u0] at hp
        exact absurd hp (by simp)
    · constructor
      · intro reply hr
        rw [serve_none _ r net (by rw [hroute]; exact u0)] at hr
        exact absurd hr (by simp)
      · intro _
        obtain ⟨hops, hh⟩ := Client.Do_sent net (proxyRequestOf r)
        refine ⟨proxyRequestOf r, hops, resp, ?_, u1, ?_⟩
        · rw [serve_snd, hroute, u2]
          exact hh
        · simp only [checkWriteHeaderCode, Bool.or_eq_true, decide_eq_true_eq] at u3
          exact u3

theorem C9_witness :
    (∀ reply : Reply, (serve (corsMiddleware uploadHandler) sampleRequest
        upstreamOverloaded).1 = some reply →
      reply.header.entry (CanonicalMIMEHeaderKey "Access-Control-Allow-Origin") =
        some ["*"] ∧
      reply.header.entry (CanonicalMIMEHeaderKey "Access-Control-Allow-Methods") =
        some ["POST, OPTIONS"] ∧
      reply.header.entry (CanonicalMIMEHeaderKey "Access-Control-Allow-Headers") =
        some ["Content-Type, X-UploadType, X-FileName, X-ItemType, X-PendingId, X-ItemId"]) ∧
    Option.map Reply.status
      (serve (corsMiddleware uploadHandler) sampleRequest upstreamOverloaded).1 = some 503 :=
  ⟨(C9_cors_headers_on_every_response sampleRequest upstreamOverloaded).1, by decide⟩

/-- C10: the request `uploadHandler` hands to `client.Do` carries header names set by the
handler that are exactly X-UploadType, X-FileName, X-ItemType, Content-Type, X-PendingId and
X-ItemId (in canonical spelling), whatever headers the inbound request carries; Authorization
is not among them and reads as absent. -/
theorem C10_no_authentication_header (r : Request) (net : World) (pr : Request)
    (rest : List Request)
    (hfwd : (serve uploadHandler r net).2.sent = net.sent ++ pr :: rest) :
    pr.Header.keys.Perm (List.map CanonicalMIMEHeaderKey
      ["X-UploadType", "X-FileName", "X-ItemType", "Content-Type", "X-PendingId", "X-ItemId"]) ∧
    CanonicalMIMEHeaderKey "Authorization" ∉ pr.Header.keys ∧
    pr.Header.entry (CanonicalMIMEHeaderKey "Authorization") = none ∧
    pr.Header.Get "Authorization" = "" := by
  rw [serve_snd] at hfwd
  obtain ⟨_, _, _, hpr⟩ := forward_of_sent _ r net pr rest hfwd
  subst hpr
  have hk : (proxyRequestOf r).Header.keys =
      ["X-Itemid", "X-Pendingid", "Content-Type", "X-Itemtype", "X-Filename", "X-Uploadtype"] :=
    rfl
  refine ⟨?_, ?_, rfl, rfl⟩
  · rw [hk]; decide
  · rw [hk]; decide

theorem C10_witness :
    sampleProxyRequest.Header.keys.Perm (List.map CanonicalMIMEHeaderKey
      ["X-UploadType", "X-FileName", "X-ItemType", "Content-Type", "X-PendingId", "X-ItemId"]) ∧
    CanonicalMIMEHeaderKey "Authorization" ∉ sampleProxyRequest.Header.keys ∧
    sampleProxyRequest.Header.entry (CanonicalMIMEHeaderKey "Authorization") = none ∧
    sampleProxyRequest.Header.Get "Authorization" = "" :=
  C10_no_authentication_header sampleRequest upstreamOK sampleProxyRequest [] (by decide)

/-- C2, as the spec states it, fails: in `emptyUploadTypeRequest` the header X-UploadType is
present and its value is the empty string; the request is forwarded, and the outbound
X-UploadType is `raw`, which is not the inbound value. -/
theorem C2_counterexample_present_but_empty :
    emptyUploadTypeRequest.Header.entry (CanonicalMIMEHeaderKey "X-UploadType") = some [""] ∧
    ∃ pr : Request,
      (serve uploadHandler emptyUploadTypeRequest upstreamOK).2.sent = upstreamOK.sent ++ [pr] ∧
      pr.Header.entry (CanonicalMIMEHeaderKey "X-UploadType") = some ["raw"] ∧
      pr.Header.Get "X-UploadType" ≠ emptyUploadTypeRequest.Header.Get "X-UploadType" :=
  ⟨by decide, proxyRequestOf emptyUploadTypeRequest, by decide, by decide, by decide⟩

/-- C2, amended: in the request `uploadHandler` forwards (the one it hands to `client.Do`),
X-UploadType, X-ItemType and Content-Type carry the first inbound value of that header when the header is present and that
value is not empty, and `raw`, `libraryitem` and `content/unknown` when the header is missing
or its first value is the empty string; X-FileName, X-PendingId and X-ItemId carry the first
inbound value when the header is present and the empty string when it is missing. -/
theorem C2_headers_forwarded_or_defaulted (r : Request) (net : World) (pr : Request)
    (rest : List Request)
    (hfwd : (serve uploadHandler r net).2.sent = net.sent ++ pr :: rest) :
    (∀ key dflt : String,
      (key, dflt) ∈ [("X-UploadType", "raw"), ("X-ItemType", "libraryitem"),
                     ("Content-Type", "content/unknown")] →
      (∀ (v : String) (vs : List String),
        r.Header.entry (CanonicalMIMEHeaderKey key) = some (v :: vs) → v ≠ "" →
        pr.Header.entry (CanonicalMIMEHeaderKey key) = some [v]) ∧
      (r.Header.entry (CanonicalMIMEHeaderKey key) = none →
        pr.Header.entry (CanonicalMIMEHeaderKey key) = some [dflt]) ∧
      (r.Header.entry (CanonicalMIMEHeaderKey key) = some [] →
        pr.Header.entry (CanonicalMIMEHeaderKey key) = some [dflt]) ∧
      (∀ vs : List String, r.Header.entry (CanonicalMIMEHeaderKey key) = some ("" :: vs) →
        pr.Header.entry (CanonicalMIMEHeaderKey key) = some [dflt])) ∧
    (∀ key : String, key ∈ ["X-FileName", "X-PendingId", "X-ItemId"] →
      (∀ (v : String) (vs : List String),
        r.Header.entry (CanonicalMIMEHeaderKey key) = some (v :: vs) →
        pr.Header.entry (CanonicalMIMEHeaderKey key) = some [v]) ∧
      (r.Header.entry (CanonicalMIMEHeaderKey key) = none →
        pr.Header.entry (CanonicalMIMEHeaderKey key) = some [""]) ∧
      (r.Header.entry (CanonicalMIMEHeaderKey key) = some [] →
        pr.Header.entry (CanonicalMIMEHeaderKey key) = some [""])) := by
  rw [serve_snd] at hfwd
  obtain ⟨_, _, _, hpr⟩ := forward_of_sent _ r net pr rest hfwd
  subst hpr
  have dflt_case : ∀ key dflt : String,
      (proxyRequestOf r).Header.entry (CanonicalMIMEHeaderKey key) =
        some [getHeaderWithDefault r key dflt] →
      (∀ (v : String) (vs : List String),
        r.Header.entry (CanonicalMIMEHeaderKey key) = some (v :: vs) → v ≠ "" →
        (proxyRequestOf r).Header.entry (CanonicalMIMEHeaderKey key) = some [v]) ∧
      (r.Header.entry (CanonicalMIMEHeaderKey key) = none →
        (proxyRequestOf r).Header.entry (CanonicalMIMEHeaderKey key) = some [dflt]) ∧
      (r.Header.entry (CanonicalMIMEHeaderKey key) = some [] →
        (proxyRequestOf r).Header.entry (CanonicalMIMEHeaderKey key) = some [dflt]) ∧
      (∀ vs : List String, r.Header.entry (CanonicalMIMEHeaderKey key) = some ("" :: vs) →
        (proxyRequestOf r).Header.entry (CanonicalMIMEHeaderKey key) = some [dflt]) := by
    intro key dflt he
    rw [he, getHeaderWithDefault_eq]
    refine ⟨?_, ?_, ?_, ?_⟩
    · intro v vs hv hne
      rw [Header.Get_of_entry_cons _ key v vs hv, if_neg hne]
    · intro hv
      rw [Header.Get_of_entry_none _ key hv, if_pos rfl]
    · intro hv
      rw [Header.Get_of_entry_nil _ key hv, if_pos rfl]
    · intro vs hv
      rw [Header.Get_of_entry_cons _ key "" vs hv, if_pos rfl]
  have pass_case : ∀ key : String,
      (proxyRequestOf r).Header.entry (CanonicalMIMEHeaderKey key) = some [r.Header.Get key] →
      (∀ (v : String) (vs : List String),
        r.Header.entry (CanonicalMIMEHeaderKey key) = some (v :: vs) →
        (proxyRequestOf r).Header.entry (CanonicalMIMEHeaderKey key) = some [v]) ∧
      (r.Header.entry (CanonicalMIMEHeaderKey key) = none →
        (proxyRequestOf r).Header.entry (CanonicalMIMEHeaderKey key) = some [""]) ∧
      (r.Header.entry (CanonicalMIMEHeaderKey key) = some [] →
        (proxyRequestOf r).Header.entry (CanonicalMIMEHeaderKey key) = some [""]) := by
    intro key he
    rw [he]
    refine ⟨?_, ?_, ?_⟩
    · intro v vs hv
      rw [Header.Get_of_entry_cons _ key v vs hv]
    · intro hv
      rw [Header.Get_of_entry_none _ key hv]
    · intro hv
      rw [Header.Get_of_entry_nil _ key hv]
  constructor
  · intro key dflt hmem
    simp only [List.mem_cons, Prod.mk.injEq, List.mem_singleton, List.not_mem_nil, or_false]
      at hmem
    rcases hmem with ⟨rfl, rfl⟩ | ⟨rfl, rfl⟩ | ⟨rfl, rfl⟩
    · exact dflt_case _ _ rfl
    · exact dflt_case _ _ rfl
    · exact dflt_case _ _ rfl
  · intro key hmem
    simp only [List.mem_cons, List.mem_singleton, List.not_mem_nil, or_false] at hmem
    rcases hmem with rfl | rfl | rfl
    · exact pass_case _ rfl
    · exact pass_case _ rfl
    · exact pass_case _ rfl

theorem C2_witness :
    (serve uploadHandler sampleRequest upstreamOK).2.sent =
      upstreamOK.sent ++ [sampleProxyRequest] ∧
    sampleProxyRequest.Header.entry (CanonicalMIMEHeaderKey "Content-Type") =
      some ["image/png"] ∧
    sampleProxyRequest.Header.entry (CanonicalMIMEHeaderKey "X-UploadType") = some ["raw"] ∧
    sampleProxyRequest.Header.entry (CanonicalMIMEHeaderKey "X-ItemType") =
      some ["libraryitem"] ∧
    sampleProxyRequest.Header.entry (CanonicalMIMEHeaderKey "X-FileName") = some ["a.png"] ∧
    sampleProxyRequest.Header.entry (CanonicalMIMEHeaderKey "X-ItemId") = some [""] :=
  have h := C2_headers_forwarded_or_defaulted sampleRequest upstreamOK sampleProxyRequest []
    (by decide)
  ⟨by decide,
   (h.1 "Content-Type" "content/unknown" (by simp)).1 "image/png" [] (by decide) (by decide),
   (h.1 "X-UploadType" "raw" (by simp)).2.1 (by decide),
   (h.1 "X-ItemType" "libraryitem" (by simp)).2.1 (by decide),
   (h.2 "X-FileName" (by simp)).1 "a.png" [] (by decide),
   (h.2 "X-ItemId" (by simp)).2.1 (by decide)⟩

end GoUploadProxy
